import Mathlib

/-!
Shallow embedding of the weather-app HTTP gateway (api/main.py) in Lean 4,
and verification of its specification claims.

Modelling conventions:
* Machine floats of the source (latitude, longitude, temperatures) are
  modelled as rationals; Python fixed-point float formatting is modelled as
  correct rounding of the exact rational value, ties to even.
* `time.time()` truncated to `int` seconds (`_now`) is modelled by a `Nat`
  parameter `now` supplied to each operation; a whole request is modelled as
  running at one clock value.
* The decoded JSON bodies returned by the two upstream providers are
  modelled by typed records with optional fields (`GeoCandidate`,
  `Forecast`); missing JSON keys are `none`.
* The single shared dict `_cache` maps string keys to entries holding either
  a geocoding candidate or a forecast body; the sum type `CVal` plays the
  role of the untyped payload, and duck-typed getters mirror Python
  `dict.get` on a payload of the other shape.
* `async` effects (the cache lock, upstream HTTP calls) are modelled by
  explicit state passing: each operation takes the cache before and returns
  the cache after, together with the number of upstream calls it issued.
-/

deriving instance DecidableEq for Except

namespace WeatherApp

/-- A cache entry: the stored payload plus its absolute expiry timestamp in
whole seconds, as stored by `cache_set` in api/main.py. -/
structure CacheEntry (α : Type) where
  value : α
  expires_at : Nat
deriving Repr, DecidableEq

/-- The in-memory TTL cache `_cache : Dict[str, Dict]`, modelled as a map
from string keys to optional entries. -/
def Cache (α : Type) : Type := String → Option (CacheEntry α)

/-- `CACHE_TTL_SECONDS = 300` (api/main.py line 19). -/
def CACHE_TTL_SECONDS : Nat := 300

/-- `cache_get` (api/main.py lines 26-35): look the key up; a missing entry
yields `None`; an entry whose `expires_at` is strictly in the past is
deleted and `None` is returned; otherwise the stored value is returned.
Returns the value read together with the cache after the call. -/
def cache_get {α : Type} (c : Cache α) (key : String) (now : Nat) :
    Option α × Cache α :=
  match c key with
  | none => (none, c)
  | some entry =>
      if entry.expires_at < now then
        (none, fun k => if k = key then none else c k)
      else
        (some entry.value, c)

/-- `cache_set` (api/main.py lines 38-40): unconditionally overwrite the key
with the value, expiring at `now + ttl`. The Python default `ttl` is
`CACHE_TTL_SECONDS`; callers of this model pass it explicitly. -/
def cache_set {α : Type} (c : Cache α) (key : String) (value : α)
    (now : Nat) (ttl : Nat) : Cache α :=
  fun k => if k = key then some { value := value, expires_at := now + ttl } else c k

/-- One decoded geocoding candidate, as consumed by `get_weather`
(fields read: name, latitude, longitude, country, admin1). -/
structure GeoCandidate where
  name : Option String
  country : Option String
  admin1 : Option String
  latitude : Option ℚ
  longitude : Option ℚ
deriving Repr, DecidableEq

/-- The decoded `current_weather` section of a forecast body; `get_weather`
reads its `weathercode` field, the rest is passed through. -/
structure CurrentWeather where
  weathercode : Option Int
  temperature : Option ℚ
deriving Repr, DecidableEq

/-- A decoded forecast body: optional `current_weather` and `hourly`
sections (missing JSON keys are `none`). -/
structure Forecast where
  current_weather : Option CurrentWeather
  hourly : Option (List (String × List ℚ))
deriving Repr, DecidableEq

/-- The untyped payload stored in the shared `_cache` dict by `get_weather`:
either a geocoding candidate (under a `geocode:` key) or a forecast body
(under a `forecast:` key). -/
inductive CVal where
  | geo (c : GeoCandidate)
  | fc (f : Forecast)
deriving Repr, DecidableEq

/-- `top.get("name")` on a cached payload (duck-typed: a forecast body has
no such key). -/
def CVal.getName : CVal → Option String
  | .geo c => c.name
  | .fc _ => none

/-- `top.get("latitude")` on a cached payload. -/
def CVal.getLatitude : CVal → Option ℚ
  | .geo c => c.latitude
  | .fc _ => none

/-- `top.get("longitude")` on a cached payload. -/
def CVal.getLongitude : CVal → Option ℚ
  | .geo c => c.longitude
  | .fc _ => none

/-- `top.get("country")` on a cached payload. -/
def CVal.getCountry : CVal → Option String
  | .geo c => c.country
  | .fc _ => none

/-- `top.get("admin1")` on a cached payload. -/
def CVal.getAdmin1 : CVal → Option String
  | .geo c => c.admin1
  | .fc _ => none

/-- `forecast.get("current_weather")` on a cached payload. -/
def CVal.getCurrent : CVal → Option CurrentWeather
  | .fc f => f.current_weather
  | .geo _ => none

/-- `forecast.get("hourly", {})` on a cached payload. -/
def CVal.getHourly : CVal → List (String × List ℚ)
  | .fc f => f.hourly.getD []
  | .geo _ => []

/-- One entry of the static weather-code table: description and emoji icon. -/
structure WCEntry where
  desc : String
  icon : String
deriving Repr, DecidableEq

/-- `WEATHERCODE_MAP` (api/main.py lines 44-63): the static mapping from
integer weather code to description and icon, with the icon strings exactly
as they appear in the source file. -/
def WEATHERCODE_MAP : List (Int × WCEntry) :=
  [ (0, { desc := "Clear sky", icon := "â˜€ï¸" }),
    (1, { desc := "Mainly clear", icon := "ðŸŒ¤ï¸" }),
    (2, { desc := "Partly cloudy", icon := "â›…" }),
    (3, { desc := "Overcast", icon := "â˜ï¸" }),
    (45, { desc := "Fog", icon := "ðŸŒ«ï¸" }),
    (48, { desc := "Depositing rime fog", icon := "ðŸŒ«ï¸" }),
    (51, { desc := "Light drizzle", icon := "ðŸŒ¦ï¸" }),
    (53, { desc := "Moderate drizzle", icon := "ðŸŒ¦ï¸" }),
    (55, { desc := "Dense drizzle", icon := "ðŸŒ§ï¸" }),
    (61, { desc := "Slight rain", icon := "ðŸŒ§ï¸" }),
    (63, { desc := "Moderate rain", icon := "ðŸŒ§ï¸" }),
    (65, { desc := "Heavy rain", icon := "â›ˆï¸" }),
    (71, { desc := "Slight snow", icon := "ðŸŒ¨ï¸" }),
    (73, { desc := "Moderate snow", icon := "ðŸŒ¨ï¸" }),
    (75, { desc := "Heavy snow", icon := "â„ï¸" }),
    (80, { desc := "Rain showers", icon := "ðŸŒ§ï¸" }),
    (95, { desc := "Thunderstorm", icon := "â›ˆï¸" }) ]

/-- The generic fallback icon literal at api/main.py line 200. -/
def FALLBACK_ICON : String := "ðŸŒˆ"

/-- `WEATHERCODE_MAP.get(wc, None)` where `wc` may itself be `None`
(api/main.py line 198): a missing code never matches a table key. -/
def wc_lookup (wc : Option Int) : Option WCEntry :=
  match wc with
  | none => none
  | some c => WEATHERCODE_MAP.lookup c

/-- `weather_desc` (api/main.py line 199): the table entry description when
the code is mapped, else the synthesized string when a code is present, else
the empty string. -/
def weather_desc (wc : Option Int) : String :=
  match wc_lookup wc with
  | some entry => entry.desc
  | none =>
      match wc with
      | some c => "Weather code " ++ toString c
      | none => ""

/-- `weather_icon` (api/main.py line 200): the table entry icon when the
code is mapped, else the generic fallback icon. -/
def weather_icon (wc : Option Int) : String :=
  match wc_lookup wc with
  | some entry => entry.icon
  | none => FALLBACK_ICON

/-- Round the fraction `num / den` to the nearest integer, ties to even:
the rounding used when Python formats a float value to a fixed number of
decimals. Stated on a numerator and a positive denominator so that it
computes by integer arithmetic alone. -/
def roundHalfEven (num : Int) (den : Nat) : Int :=
  let f : Int := Int.fdiv num den
  let rem : Int := num - f * den
  if 2 * rem < den then f
  else if (den : Int) < 2 * rem then f + 1
  else if f % 2 = 0 then f else f + 1

/-- Left-pad a digit string with zeros to the given width. -/
def padZeros (s : String) (width : Nat) : String :=
  String.mk (List.replicate (width - s.length) '0') ++ s

/-- Python fixed-point formatting of a coordinate with the given number of
fractional digits, as in the f-strings at api/main.py lines 132 and 181:
round the exact value to `digits` decimals (ties to even), render with the
fractional part zero-padded, the sign taken from the unrounded value. -/
def fmtFixed (digits : Nat) (q : ℚ) : String :=
  let n : Int := roundHalfEven (q.num * ((10 ^ digits : Nat) : Int)) q.den
  let m : Nat := n.natAbs
  let sign : String := if q.num < 0 then "-" else ""
  sign ++ toString (m / 10 ^ digits) ++ "." ++ padZeros (toString (m % 10 ^ digits)) digits

/-- Python `str.lower()` (characterwise lowering). -/
def pyLower (s : String) : String := String.mk (s.data.map Char.toLower)

/-- Python `str.strip()`: drop leading and trailing whitespace. -/
def pyStrip (s : String) : String :=
  String.mk (((s.data.dropWhile Char.isWhitespace).reverse.dropWhile
    Char.isWhitespace).reverse)

/-- Helper for `pySplitComma`: accumulate the current field (reversed) and
start a new field at each comma. -/
def splitCommaAux : List Char → List Char → List (List Char)
  | [], acc => [acc.reverse]
  | c :: cs, acc =>
      if c = ',' then acc.reverse :: splitCommaAux cs []
      else splitCommaAux cs (c :: acc)

/-- Python `str.split(",")`: split at every comma, no field collapsing, the
empty string yielding the one-element list of the empty string. -/
def pySplitComma (s : String) : List String :=
  (splitCommaAux s.data []).map String.mk

/-- The canonical location record built by `get_weather`
(api/main.py lines 131-138 and 162-168). -/
structure Location where
  name : String
  latitude : ℚ
  longitude : ℚ
  country : Option String
  admin1 : Option String
deriving Repr, DecidableEq

/-- An `HTTPException`: status code and detail string. -/
structure HttpError where
  status : Nat
  detail : String
deriving Repr, DecidableEq

/-- The response body of `/api/weather` (model `WeatherResponse`,
api/main.py lines 77-82 and 202-208). -/
structure WeatherResponse where
  location : Location
  current : CurrentWeather
  hourly : List (String × List ℚ)
  weather_desc : String
  weather_icon : String
deriving Repr, DecidableEq

/-- The geocoding cache key `f"geocode:{city.lower()}"`
(api/main.py line 142). -/
def geocode_key (city : String) : String := "geocode:" ++ pyLower city

/-- `results = geocode.get("results", []) if geocode else []`
(api/main.py line 151): a missing body or a missing `results` key both give
the empty candidate list. -/
def geo_results (geocode : Option (List GeoCandidate)) : List GeoCandidate :=
  match geocode with
  | some rs => rs
  | none => []

/-- Result of the location-resolution block of `get_weather`
(api/main.py lines 127-168): the resolved location or the raised
`HTTPException`, the cache after the block, and the number of geocoding
upstream calls issued. -/
structure ResolveResult where
  outcome : Except HttpError Location
  cache : Cache CVal
  geocode_calls : Nat

/-- api/main.py lines 155-168, shared by the cached and the fresh geocoding
candidate: `name = top.get("name") or city`, fail with 502 when the
candidate lacks a latitude or a longitude, else build the location record. -/
def finish_geo (city : String) (top : CVal) (cache : Cache CVal)
    (calls : Nat) : ResolveResult :=
  let name : String :=
    match top.getName with
    | some n => if n = "" then city else n
    | none => city
  match top.getLatitude, top.getLongitude with
  | some la, some lo =>
      { outcome := .ok { name := name, latitude := la, longitude := lo,
                         country := top.getCountry, admin1 := top.getAdmin1 },
        cache := cache, geocode_calls := calls }
  | some _, none =>
      { outcome := .error ⟨502, "Upstream geocoding did not return coordinates"⟩,
        cache := cache, geocode_calls := calls }
  | none, _ =>
      { outcome := .error ⟨502, "Upstream geocoding did not return coordinates"⟩,
        cache := cache, geocode_calls := calls }

/-- The location built when both coordinates are given (api/main.py lines
131-138): `name` is `city or f"{lat:.3f},{lon:.3f}"`, the coordinates are
taken over unchanged. -/
def coords_location (city : Option String) (la lo : ℚ) : Location :=
  { name := if city.getD "" = "" then fmtFixed 3 la ++ "," ++ fmtFixed 3 lo
            else city.getD "",
    latitude := la, longitude := lo, country := none, admin1 := none }

/-- The location-resolution block of `get_weather` (api/main.py lines
127-168). `geocode` is the decoded body the geocoding provider would return
for this request; it is consulted only when the block actually issues the
upstream call, and `geocode_calls` counts those calls. -/
def resolve_location (city : Option String) (lat lon : Option ℚ)
    (geocode : Option (List GeoCandidate)) (cache : Cache CVal) (now : Nat) :
    ResolveResult :=
  if city.getD "" = "" ∧ (lat = none ∨ lon = none) then
    { outcome := .error ⟨400, "Provide either city or lat and lon"⟩,
      cache := cache, geocode_calls := 0 }
  else
    match lat, lon with
    | some la, some lo =>
        { outcome := .ok (coords_location city la lo),
          cache := cache, geocode_calls := 0 }
    | _, _ =>
        let cityS := city.getD ""
        let geokey := geocode_key cityS
        let read := cache_get cache geokey now
        match read.1 with
        | some top => finish_geo cityS top read.2 0
        | none =>
            match geo_results geocode with
            | [] =>
                { outcome := .error ⟨404, "City \x27" ++ cityS ++ "\x27 not found"⟩,
                  cache := read.2, geocode_calls := 1 }
            | top :: _ =>
                finish_geo cityS (.geo top)
                  (cache_set read.2 geokey (.geo top) now CACHE_TTL_SECONDS) 1

/-- The hourly-variable list (api/main.py line 170):
`[v.strip() for v in (hourly_vars or "").split(",") if v.strip()]`. -/
def hourly_list (hourly_vars : Option String) : List String :=
  (pySplitComma (hourly_vars.getD "")).filterMap
    (fun v => if pyStrip v = "" then none else some (pyStrip v))

/-- The query parameters sent to the forecast provider (api/main.py lines
171-179) after dropping the `None`-valued entries: an `hourly := none`
field models the parameter being absent from the request. -/
structure ForecastParams where
  latitude : ℚ
  longitude : ℚ
  current_weather : Bool
  hourly : Option String
  timezone : String
  forecast_days : Nat
deriving Repr, DecidableEq

/-- Build the forecast query parameters (api/main.py lines 171-179). -/
def forecast_params (location : Location) (hl : List String) : ForecastParams :=
  { latitude := location.latitude, longitude := location.longitude,
    current_weather := true,
    hourly := if hl.isEmpty then none else some (String.intercalate "," hl),
    timezone := "auto", forecast_days := 1 }

/-- The forecast cache key (api/main.py line 181): the namespace prefix,
the two coordinates formatted to 4 decimal places, and the joined hourly
list. -/
def forecast_cache_key (location : Location) (hl : List String) : String :=
  "forecast:" ++ fmtFixed 4 location.latitude ++ "," ++ fmtFixed 4 location.longitude
    ++ ":" ++ String.intercalate "," hl

/-- Result of the forecast-fetching block of `get_weather` (api/main.py
lines 181-194 up to the cache write): the payload to use, the cache after
the block, and the number of forecast upstream calls issued. -/
structure ForecastStep where
  value : CVal
  cache : Cache CVal
  forecast_calls : Nat

/-- The forecast-fetching block of `get_weather` (api/main.py lines
170-188): parse the hourly list, build the cache key, serve from the cache
on a hit; on a miss call the forecast provider (whose decoded body for this
request is `forecast`) and store the raw result before any validation. -/
def fetch_forecast (location : Location) (hourly_vars : Option String)
    (forecast : Forecast) (cache : Cache CVal) (now : Nat) : ForecastStep :=
  let hl := hourly_list hourly_vars
  let key := forecast_cache_key location hl
  let read := cache_get cache key now
  match read.1 with
  | some v => { value := v, cache := read.2, forecast_calls := 0 }
  | none =>
      { value := .fc forecast,
        cache := cache_set read.2 key (.fc forecast) now CACHE_TTL_SECONDS,
        forecast_calls := 1 }

/-- The decoded bodies the two upstream providers would return for one
request: `geocode` for the geocoding search, `forecast` for the forecast
endpoint. -/
structure Upstream where
  geocode : Option (List GeoCandidate)
  forecast : Forecast

/-- Full observable outcome of one `GET /api/weather` request: the response
or the raised `HTTPException`, the cache afterwards, and the upstream calls
issued. -/
structure GetWeatherResult where
  result : Except HttpError WeatherResponse
  cache : Cache CVal
  geocode_calls : Nat
  forecast_calls : Nat

/-- `get_weather` (api/main.py lines 114-208): validate the inputs, resolve
the location, fetch the forecast (through the cache), fail with 502 when
the payload has no `current_weather`, and annotate with the weather-code
description and icon. -/
def get_weather (city : Option String) (lat lon : Option ℚ)
    (hourly_vars : Option String) (up : Upstream) (cache : Cache CVal)
    (now : Nat) : GetWeatherResult :=
  let r := resolve_location city lat lon up.geocode cache now
  match r.outcome with
  | .error e =>
      { result := .error e, cache := r.cache,
        geocode_calls := r.geocode_calls, forecast_calls := 0 }
  | .ok location =>
      let fs := fetch_forecast location hourly_vars up.forecast r.cache now
      match fs.value.getCurrent with
      | none =>
          { result := .error ⟨502, "No current weather returned by upstream API"⟩,
            cache := fs.cache, geocode_calls := r.geocode_calls,
            forecast_calls := fs.forecast_calls }
      | some cur =>
          { result := .ok
              { location := location, current := cur,
                hourly := fs.value.getHourly,
                weather_desc := weather_desc cur.weathercode,
                weather_icon := weather_icon cur.weathercode },
            cache := fs.cache, geocode_calls := r.geocode_calls,
            forecast_calls := fs.forecast_calls }

/-- The FastAPI default for the `hourly_vars` query parameter
(api/main.py lines 118-121). -/
def DEFAULT_HOURLY_VARS : String := "temperature_2m,relativehumidity_2m,windspeed_10m"

/-- The empty cache (fresh process state). -/
def emptyCache : Cache CVal := fun _ => none

/-! ## Helper lemmas -/

/-- A read that misses leaves no entry for the key behind (either there was
none, or the stale entry was just evicted). -/
theorem cache_get_miss_none {α : Type} (c : Cache α) (key : String) (now : Nat)
    (h : (cache_get c key now).1 = none) : (cache_get c key now).2 key = none := by
  cases hc : c key with
  | none => simp [cache_get, hc]
  | some entry =>
      by_cases hexp : entry.expires_at < now
      · simp [cache_get, hc, hexp]
      · simp [cache_get, hc, hexp] at h

/-- `fetch_forecast` issues at most one upstream call. -/
theorem fetch_forecast_calls_le_one (location : Location)
    (hourly_vars : Option String) (forecast : Forecast) (cache : Cache CVal)
    (now : Nat) :
    (fetch_forecast location hourly_vars forecast cache now).forecast_calls ≤ 1 := by
  unfold fetch_forecast
  cases h : (cache_get cache (forecast_cache_key location (hourly_list hourly_vars)) now).1 <;>
    simp [h]

/-- String append acts as list append on the underlying character data. -/
theorem append_data (s t : String) : (s ++ t).data = s.data ++ t.data := by
  cases s; cases t; rfl

/-- A sample cache over `Nat` payloads holding one entry that expires at
time 3, used to instantiate the generic cache theorems. -/
def cacheK : Cache Nat :=
  fun k => if k = "k" then some { value := 7, expires_at := 3 } else none

/-! ## Claims -/

/-- C3: a cache get performed after the stored entry of the key has expired
returns absent, removes the stale entry as a side effect, and any later get
on the same key (without an intervening set) also returns absent — an
expired entry behaves identically to no entry present and is never
resurrected. -/
theorem expired_entry_evicted {α : Type} (cache : Cache α) (key : String)
    (now now' : Nat) (entry : CacheEntry α)
    (hsome : cache key = some entry) (hexp : entry.expires_at < now) :
    (cache_get cache key now).1 = none
  ∧ (cache_get cache key now).2 key = none
  ∧ (cache_get ((cache_get cache key now).2) key now').1 = none := by
  have h1 : (cache_get cache key now).1 = none := by
    simp [cache_get, hsome, hexp]
  have h2 : (cache_get cache key now).2 key = none :=
    cache_get_miss_none cache key now h1
  refine ⟨h1, h2, ?_⟩
  generalize (cache_get cache key now).2 = c2 at h2 ⊢
  simp [cache_get, h2]

/-- C3 witness: a concrete expired entry (expiry 3, read at time 5) is
reported absent, evicted, and stays absent at a later read (time 9). -/
theorem expired_entry_evicted_w :
    (cache_get cacheK "k" 5).1 = none
  ∧ (cache_get cacheK "k" 5).2 "k" = none
  ∧ (cache_get ((cache_get cacheK "k" 5).2) "k" 9).1 = none :=
  expired_entry_evicted cacheK "k" 5 9 { value := 7, expires_at := 3 }
    (by decide) (by decide)

/-- C10: expiry is strict, on the whole-second clock of the model: an entry
written with `cache_set key v now ttl` is still returned by a get at any
time up to and including `now + ttl`, and a get strictly after `now + ttl`
returns absent — eviction requires the current time to exceed `expires_at`
strictly. -/
theorem ttl_boundary {α : Type} (cache : Cache α) (key : String) (v : α)
    (ttl now m : Nat) :
    (m ≤ now + ttl → (cache_get (cache_set cache key v now ttl) key m).1 = some v)
  ∧ (now + ttl < m → (cache_get (cache_set cache key v now ttl) key m).1 = none) := by
  constructor
  · intro h
    simp [cache_get, cache_set, Nat.not_lt.mpr h]
  · intro h
    simp [cache_get, cache_set, h]

/-- C10 witness: an entry set at time 10 with ttl 300 is still served at
time 310 (`expires_at` exactly equal to the clock) and gone at time 311. -/
theorem ttl_boundary_w :
    (cache_get (cache_set cacheK "q" 9 10 300) "q" 310).1 = some 9
  ∧ (cache_get (cache_set cacheK "q" 9 10 300) "q" 311).1 = none :=
  ⟨(ttl_boundary cacheK "q" 9 300 10 310).1 (by decide),
   (ttl_boundary cacheK "q" 9 300 10 311).2 (by decide)⟩

/-- A `finish_geo` failure always carries status 502. -/
theorem finish_geo_status (city : String) (top : CVal) (cache : Cache CVal)
    (calls : Nat) (e : HttpError)
    (h : (finish_geo city top cache calls).outcome = .error e) :
    e.status = 502 := by
  unfold finish_geo at h
  rcases hla : top.getLatitude with _ | la <;>
    rcases hlo : top.getLongitude with _ | lo <;>
    rw [hla, hlo] at h <;> simp_all <;> simp [← h]

/-- When the input-validation guard does not fire, a resolution failure
carries status 404 or 502, never 400. -/
theorem resolve_error_status (city : Option String) (lat lon : Option ℚ)
    (geocode : Option (List GeoCandidate)) (cache : Cache CVal) (now : Nat)
    (hg : ¬(city.getD "" = "" ∧ (lat = none ∨ lon = none)))
    (e : HttpError)
    (h : (resolve_location city lat lon geocode cache now).outcome = .error e) :
    e.status = 404 ∨ e.status = 502 := by
  unfold resolve_location at h
  rw [if_neg hg] at h
  rcases lat with _ | la <;> rcases lon with _ | lo
  case some.some => simp at h
  all_goals
    dsimp only at h
    rcases hc : (cache_get cache (geocode_key (city.getD "")) now).1 with _ | top
    case some =>
      rw [hc] at h
      exact Or.inr (finish_geo_status _ _ _ _ _ h)
    case none =>
      rw [hc] at h
      rcases hres : geo_results geocode with _ | ⟨top, rest⟩
      · rw [hres] at h
        simp at h
        exact Or.inl (h ▸ rfl)
      · rw [hres] at h
        exact Or.inr (finish_geo_status _ _ _ _ _ h)

/-- When the input-validation guard does not fire, a `get_weather` failure
carries status 404 or 502, never 400. -/
theorem get_weather_error_status (city : Option String) (lat lon : Option ℚ)
    (hourly_vars : Option String) (up : Upstream) (cache : Cache CVal)
    (now : Nat)
    (hg : ¬(city.getD "" = "" ∧ (lat = none ∨ lon = none)))
    (e : HttpError)
    (h : (get_weather city lat lon hourly_vars up cache now).result = .error e) :
    e.status = 404 ∨ e.status = 502 := by
  unfold get_weather at h
  dsimp only at h
  cases hr : (resolve_location city lat lon up.geocode cache now).outcome with
  | error e2 =>
      rw [hr] at h
      simp at h
      exact h ▸ resolve_error_status city lat lon up.geocode cache now hg e2 hr
  | ok location =>
      rw [hr] at h
      dsimp only at h
      cases hcur : (fetch_forecast location hourly_vars up.forecast
          (resolve_location city lat lon up.geocode cache now).cache now).value.getCurrent with
      | none =>
          rw [hcur] at h
          simp at h
          exact Or.inr (h ▸ rfl)
      | some cur =>
          rw [hcur] at h
          simp at h

/-- C4: `get_weather` fails with status 400 (InvalidRequest) exactly when
the city is absent or empty and the coordinate pair is incomplete; whenever
a non-empty city is given, or both coordinates are given, no 400 error is
raised. -/
theorem invalid_request_iff (city : Option String) (lat lon : Option ℚ)
    (hourly_vars : Option String) (up : Upstream) (cache : Cache CVal)
    (now : Nat) :
    (∃ d, (get_weather city lat lon hourly_vars up cache now).result =
        .error { status := 400, detail := d })
  ↔ (city.getD "" = "" ∧ (lat = none ∨ lon = none)) := by
  constructor
  · rintro ⟨d, hd⟩
    by_contra hg
    rcases get_weather_error_status city lat lon hourly_vars up cache now hg
      { status := 400, detail := d } hd with h4 | h4 <;> simp at h4
  · intro hg
    exact ⟨"Provide either city or lat and lon",
      by simp [get_weather, resolve_location, hg]⟩

/-- C4 witness: with no city and only a latitude, the request fails with
status 400; with both coordinates given it does not. -/
theorem invalid_request_iff_w :
    (∃ d, (get_weather none (some 1) none none
        { geocode := none, forecast := { current_weather := none, hourly := none } }
        emptyCache 0).result = .error { status := 400, detail := d })
  ∧ ¬ (∃ d, (get_weather none (some 1) (some 2) none
        { geocode := none, forecast := { current_weather := none, hourly := none } }
        emptyCache 0).result = .error { status := 400, detail := d }) :=
  ⟨(invalid_request_iff none (some 1) none none
      { geocode := none, forecast := { current_weather := none, hourly := none } }
      emptyCache 0).mpr (by decide),
   fun hx => by
    have := (invalid_request_iff none (some 1) (some 2) none
      { geocode := none, forecast := { current_weather := none, hourly := none } }
      emptyCache 0).mp hx
    simp at this⟩

/-- C5: when both coordinates are provided the resolver succeeds with
exactly those coordinates, the name being the city when one is given
(non-empty) and the formatted coordinate string otherwise; the cache is
left untouched (the coordinate branch performs no cache access) and no
geocoding upstream call is made. -/
theorem resolve_with_coords (city : Option String) (la lo : ℚ)
    (geocode : Option (List GeoCandidate)) (cache : Cache CVal) (now : Nat) :
    (resolve_location city (some la) (some lo) geocode cache now).outcome =
      .ok (coords_location city la lo)
  ∧ (coords_location city la lo).latitude = la
  ∧ (coords_location city la lo).longitude = lo
  ∧ (city.getD "" ≠ "" → (coords_location city la lo).name = city.getD "")
  ∧ (city.getD "" = "" →
      (coords_location city la lo).name = fmtFixed 3 la ++ "," ++ fmtFixed 3 lo)
  ∧ (resolve_location city (some la) (some lo) geocode cache now).cache = cache
  ∧ (resolve_location city (some la) (some lo) geocode cache now).geocode_calls = 0 := by
  refine ⟨by simp [resolve_location], rfl, rfl, ?_, ?_,
    by simp [resolve_location], by simp [resolve_location]⟩
  · intro h
    simp [coords_location, h]
  · intro h
    simp [coords_location, h]

/-- C5 witness: resolving `city="NYC", lat=1, lon=2` returns that name and
those coordinates with the cache unchanged and no geocoding call. -/
theorem resolve_with_coords_w :
    (resolve_location (some "NYC") (some 1) (some 2) none emptyCache 0).outcome =
      .ok (coords_location (some "NYC") 1 2)
  ∧ (coords_location (some "NYC") 1 2).name = "NYC"
  ∧ (coords_location (some "NYC") 1 2).latitude = 1
  ∧ (resolve_location (some "NYC") (some 1) (some 2) none emptyCache 0).geocode_calls = 0 :=
  ⟨(resolve_with_coords (some "NYC") 1 2 none emptyCache 0).1,
   (resolve_with_coords (some "NYC") 1 2 none emptyCache 0).2.2.2.1 (by decide),
   (resolve_with_coords (some "NYC") 1 2 none emptyCache 0).2.1,
   (resolve_with_coords (some "NYC") 1 2 none emptyCache 0).2.2.2.2.2.2⟩

/-- C9: a city request that misses the geocoding cache and gets zero
candidates from the geocoding provider fails with status 404, and
afterwards the cache holds no geocoding entry for that key. -/
theorem geocode_miss_zero_candidates (city : String) (lat lon : Option ℚ)
    (geocode : Option (List GeoCandidate)) (cache : Cache CVal) (now : Nat)
    (hcity : ¬ city = "") (hco : lat = none ∨ lon = none)
    (hmiss : (cache_get cache (geocode_key city) now).1 = none)
    (hzero : geo_results geocode = []) :
    (resolve_location (some city) lat lon geocode cache now).outcome =
      .error ⟨404, "City \x27" ++ city ++ "\x27 not found"⟩
  ∧ (resolve_location (some city) lat lon geocode cache now).cache
      (geocode_key city) = none := by
  have h2 := cache_get_miss_none cache (geocode_key city) now hmiss
  have hng : ¬((some city).getD "" = "" ∧ (lat = none ∨ lon = none)) := by
    simp [hcity]
  unfold resolve_location
  rw [if_neg hng]
  rcases lat with _ | la <;> rcases lon with _ | lo
  case some.some => rcases hco with h | h <;> simp at h
  all_goals
    dsimp only [Option.getD]
    rw [hmiss, hzero]
    exact ⟨rfl, h2⟩

/-- C9 witness: city "Nonexististan" on an empty cache with a zero-result
geocoding body yields the 404 error and no cache entry for the key. -/
theorem geocode_miss_zero_candidates_w :
    (resolve_location (some "Nonexististan") none none (some []) emptyCache 0).outcome =
      .error ⟨404, "City \x27Nonexististan\x27 not found"⟩
  ∧ (resolve_location (some "Nonexististan") none none (some []) emptyCache 0).cache
      (geocode_key "Nonexististan") = none :=
  geocode_miss_zero_candidates "Nonexististan" none none (some []) emptyCache 0
    (by decide) (Or.inl rfl) (by decide) (by decide)

/-- C6: the weather-code annotation is a total three-case function of the
optional code: a mapped code takes the table entry description and icon; an
unmapped code synthesizes "Weather code {code}" with the fallback icon; a
missing code yields the empty description and the fallback icon. -/
theorem weathercode_mapping (wc : Option Int) :
    (∀ c entry, wc = some c → WEATHERCODE_MAP.lookup c = some entry →
        weather_desc wc = entry.desc ∧ weather_icon wc = entry.icon)
  ∧ (∀ c, wc = some c → WEATHERCODE_MAP.lookup c = none →
        weather_desc wc = "Weather code " ++ toString c
      ∧ weather_icon wc = FALLBACK_ICON)
  ∧ (wc = none → weather_desc wc = "" ∧ weather_icon wc = FALLBACK_ICON) := by
  refine ⟨?_, ?_, ?_⟩
  · rintro c entry rfl hl
    constructor <;> simp [weather_desc, weather_icon, wc_lookup, hl]
  · rintro c rfl hl
    constructor <;> simp [weather_desc, weather_icon, wc_lookup, hl]
  · rintro rfl
    constructor <;> simp [weather_desc, weather_icon, wc_lookup]

/-- C6 witness: code 0 maps to "Clear sky", unmapped code 999 synthesizes
"Weather code 999" with the fallback icon, and a missing code yields the
empty description with the fallback icon. -/
theorem weathercode_mapping_w :
    weather_desc (some 0) = "Clear sky"
  ∧ weather_desc (some 999) = "Weather code 999"
  ∧ weather_icon (some 999) = FALLBACK_ICON
  ∧ weather_desc none = ""
  ∧ weather_icon none = FALLBACK_ICON :=
  ⟨((weathercode_mapping (some 0)).1 0 { desc := "Clear sky", icon := "â˜€ï¸" }
      rfl (by decide)).1,
   ((weathercode_mapping (some 999)).2.1 999 rfl (by decide)).1,
   ((weathercode_mapping (some 999)).2.1 999 rfl (by decide)).2,
   ((weathercode_mapping none).2.2 rfl).1,
   ((weathercode_mapping none).2.2 rfl).2⟩

/-- A cache hit serves the stored payload with no upstream forecast call. -/
theorem fetch_forecast_hit (location : Location) (hourly_vars : Option String)
    (forecast : Forecast) (cache : Cache CVal) (now : Nat) (v : CVal)
    (h : (cache_get cache
        (forecast_cache_key location (hourly_list hourly_vars)) now).1 = some v) :
    fetch_forecast location hourly_vars forecast cache now =
      { value := v,
        cache := (cache_get cache
          (forecast_cache_key location (hourly_list hourly_vars)) now).2,
        forecast_calls := 0 } := by
  unfold fetch_forecast
  dsimp only
  rw [h]

/-- A cache miss calls upstream once and stores the raw body. -/
theorem fetch_forecast_miss (location : Location) (hourly_vars : Option String)
    (forecast : Forecast) (cache : Cache CVal) (now : Nat)
    (h : (cache_get cache
        (forecast_cache_key location (hourly_list hourly_vars)) now).1 = none) :
    fetch_forecast location hourly_vars forecast cache now =
      { value := .fc forecast,
        cache := cache_set
          (cache_get cache
            (forecast_cache_key location (hourly_list hourly_vars)) now).2
          (forecast_cache_key location (hourly_list hourly_vars))
          (.fc forecast) now CACHE_TTL_SECONDS,
        forecast_calls := 1 } := by
  unfold fetch_forecast
  dsimp only
  rw [h]

/-- C7: two successive forecast fetches for the same resolved location and
variable list, the second within the TTL window of the first, issue at most
one upstream forecast call in total; when the first one called upstream,
the second is served exactly the payload the first stored, with no call. -/
theorem forecast_cached_within_ttl (location : Location)
    (hourly_vars : Option String) (f1 f2 : Forecast) (cache : Cache CVal)
    (t0 t1 : Nat) (h01 : t0 ≤ t1) (hwin : t1 ≤ t0 + CACHE_TTL_SECONDS) :
    (fetch_forecast location hourly_vars f1 cache t0).forecast_calls
      + (fetch_forecast location hourly_vars f2
          (fetch_forecast location hourly_vars f1 cache t0).cache t1).forecast_calls ≤ 1
  ∧ ((fetch_forecast location hourly_vars f1 cache t0).forecast_calls = 1 →
        (fetch_forecast location hourly_vars f2
          (fetch_forecast location hourly_vars f1 cache t0).cache t1).value = .fc f1
      ∧ (fetch_forecast location hourly_vars f2
          (fetch_forecast location hourly_vars f1 cache t0).cache t1).forecast_calls = 0) := by
  cases hc : (cache_get cache
      (forecast_cache_key location (hourly_list hourly_vars)) t0).1 with
  | some v =>
      rw [fetch_forecast_hit location hourly_vars f1 cache t0 v hc]
      constructor
      · simpa using fetch_forecast_calls_le_one location hourly_vars f2 _ t1
      · intro h
        simp at h
  | none =>
      rw [fetch_forecast_miss location hourly_vars f1 cache t0 hc]
      have hc2 : (cache_get
          (cache_set (cache_get cache
              (forecast_cache_key location (hourly_list hourly_vars)) t0).2
            (forecast_cache_key location (hourly_list hourly_vars))
            (.fc f1) t0 CACHE_TTL_SECONDS)
          (forecast_cache_key location (hourly_list hourly_vars)) t1).1 =
          some (.fc f1) := by
        simp [cache_get, cache_set, Nat.not_lt.mpr hwin]
      rw [fetch_forecast_hit location hourly_vars f2 _ t1 _ hc2]
      simp

/-- C7 witness: on an empty cache, a fetch at time 0 followed by an
identical fetch at time 300 issues one call total, the second one serving
the stored payload with zero calls. -/
theorem forecast_cached_within_ttl_w :
    (fetch_forecast (coords_location none 1 2) (some "temperature_2m")
        { current_weather := some { weathercode := some 0, temperature := none },
          hourly := none } emptyCache 0).forecast_calls
      + (fetch_forecast (coords_location none 1 2) (some "temperature_2m")
          { current_weather := some { weathercode := some 0, temperature := none },
            hourly := none }
          (fetch_forecast (coords_location none 1 2) (some "temperature_2m")
            { current_weather := some { weathercode := some 0, temperature := none },
              hourly := none } emptyCache 0).cache 300).forecast_calls ≤ 1 :=
  (forecast_cached_within_ttl (coords_location none 1 2) (some "temperature_2m")
    { current_weather := some { weathercode := some 0, temperature := none },
      hourly := none }
    { current_weather := some { weathercode := some 0, temperature := none },
      hourly := none }
    emptyCache 0 300 (by decide) (by decide)).1

/-- The comprehension
`[v.strip() for v in xs if v.strip()]` equals stripping every field and
then dropping the empty ones. -/
theorem filterMap_strip_eq (l : List String) :
    l.filterMap (fun v => if pyStrip v = "" then none else some (pyStrip v))
  = (l.map pyStrip).filter (fun v => v != "") := by
  induction l with
  | nil => rfl
  | cons a l ih =>
      by_cases h : pyStrip a = "" <;>
        simp [List.filterMap_cons, List.filter_cons, h, ih]

/-- C8: the requested variable list is the comma-split of the input with
every entry stripped and entries that become empty dropped; and the
`hourly` parameter is omitted from the upstream forecast request exactly
when that list is empty. -/
theorem hourly_parsing (s : String) (location : Location) :
    hourly_list (some s) = ((pySplitComma s).map pyStrip).filter (fun v => v != "")
  ∧ ((forecast_params location (hourly_list (some s))).hourly = none
      ↔ hourly_list (some s) = []) := by
  constructor
  · simpa [hourly_list] using filterMap_strip_eq (pySplitComma s)
  · by_cases he : hourly_list (some s) = [] <;>
      simp [forecast_params, he]

/-- C8 witness: the input " a , ,b," parses to the two variables a and b,
and a whitespace-only input yields the empty list, omitting the hourly
parameter upstream. -/
theorem hourly_parsing_w :
    hourly_list (some " a , ,b,") =
      ((pySplitComma " a , ,b,").map pyStrip).filter (fun v => v != "")
  ∧ (forecast_params (coords_location none 1 2) (hourly_list (some " , "))).hourly = none :=
  ⟨(hourly_parsing " a , ,b," (coords_location none 1 2)).1,
   (hourly_parsing " , " (coords_location none 1 2)).2.mpr (by decide)⟩

/-- C2 counterexample: the variable list is joined in its parsed order, not
sorted — the permuted inputs "b,a" and "a,b" produce different forecast
cache keys for the same location. -/
theorem forecast_key_not_sorted :
    forecast_cache_key (coords_location none 1 2) (hourly_list (some "b,a"))
  ≠ forecast_cache_key (coords_location none 1 2) (hourly_list (some "a,b")) := by
  decide

/-- C2 amended: the forecast cache key is determined by the two coordinates
formatted to exactly 4 decimal places together with the variable list
joined in its parsed order (not sorted, so permuted lists generally give
different keys), and it never collides with a geocoding cache key. -/
theorem forecast_key_shape (l l' : Location) (hl : List String) (city : String) :
    (fmtFixed 4 l.latitude = fmtFixed 4 l'.latitude →
     fmtFixed 4 l.longitude = fmtFixed 4 l'.longitude →
     forecast_cache_key l hl = forecast_cache_key l' hl)
  ∧ forecast_cache_key l hl ≠ geocode_key city := by
  constructor
  · intro h1 h2
    simp [forecast_cache_key, h1, h2]
  · intro h
    have hd := congrArg String.data h
    simp only [forecast_cache_key, geocode_key, append_data] at hd
    simp [List.append_assoc] at hd

/-- C2 amended witness: two locations whose coordinates agree after
4-decimal formatting share the forecast key, and that key differs from the
geocoding key of "paris". -/
theorem forecast_key_shape_w :
    forecast_cache_key (coords_location none (⟨1, 100000, by decide, by decide⟩ : ℚ) 2) ["a"]
      = forecast_cache_key (coords_location none 0 2) ["a"]
  ∧ forecast_cache_key (coords_location none (⟨1, 100000, by decide, by decide⟩ : ℚ) 2) ["a"]
      ≠ geocode_key "paris" :=
  ⟨(forecast_key_shape (coords_location none (⟨1, 100000, by decide, by decide⟩ : ℚ) 2)
      (coords_location none 0 2) ["a"] "paris").1 (by decide) (by decide),
   (forecast_key_shape (coords_location none (⟨1, 100000, by decide, by decide⟩ : ℚ) 2)
      (coords_location none 0 2) ["a"] "paris").2⟩

/-- A geocoding cache hit hands the stored payload to the shared
tail of the resolution block, with no upstream call. -/
theorem resolve_geo_hit (city : String) (lat lon : Option ℚ)
    (geocode : Option (List GeoCandidate)) (cache : Cache CVal) (now : Nat)
    (v : CVal)
    (hcity : ¬ city = "") (hco : lat = none ∨ lon = none)
    (hhit : (cache_get cache (geocode_key city) now).1 = some v) :
    resolve_location (some city) lat lon geocode cache now =
      finish_geo city v (cache_get cache (geocode_key city) now).2 0 := by
  have hng : ¬((some city).getD "" = "" ∧ (lat = none ∨ lon = none)) := by
    simp [hcity]
  unfold resolve_location
  rw [if_neg hng]
  rcases lat with _ | la <;> rcases lon with _ | lo
  case some.some => rcases hco with h | h <;> simp at h
  all_goals
    dsimp only [Option.getD]
    rw [hhit]

/-- A geocoding cache miss with a non-empty candidate list stores the top
candidate (before any validation) and hands it to the shared tail. -/
theorem resolve_geo_miss_found (city : String) (lat lon : Option ℚ)
    (geocode : Option (List GeoCandidate)) (cache : Cache CVal) (now : Nat)
    (top : GeoCandidate) (rest : List GeoCandidate)
    (hcity : ¬ city = "") (hco : lat = none ∨ lon = none)
    (hmiss : (cache_get cache (geocode_key city) now).1 = none)
    (hres : geo_results geocode = top :: rest) :
    resolve_location (some city) lat lon geocode cache now =
      finish_geo city (.geo top)
        (cache_set (cache_get cache (geocode_key city) now).2 (geocode_key city)
          (.geo top) now CACHE_TTL_SECONDS) 1 := by
  have hng : ¬((some city).getD "" = "" ∧ (lat = none ∨ lon = none)) := by
    simp [hcity]
  unfold resolve_location
  rw [if_neg hng]
  rcases lat with _ | la <;> rcases lon with _ | lo
  case some.some => rcases hco with h | h <;> simp at h
  all_goals
    dsimp only [Option.getD]
    rw [hmiss, hres]

/-- A candidate without a latitude makes the shared tail fail with 502,
leaving the cache it was handed (the entry already written) in place. -/
theorem finish_geo_no_lat (city : String) (top : CVal) (cache : Cache CVal)
    (calls : Nat) (h : top.getLatitude = none) :
    finish_geo city top cache calls =
      { outcome := .error ⟨502, "Upstream geocoding did not return coordinates"⟩,
        cache := cache, geocode_calls := calls } := by
  unfold finish_geo
  rw [h]

/-- A resolution failure propagates as the whole response, with no forecast
activity. -/
theorem get_weather_resolve_error (city : Option String) (lat lon : Option ℚ)
    (hv : Option String) (up : Upstream) (cache : Cache CVal) (now : Nat)
    (e : HttpError)
    (h : (resolve_location city lat lon up.geocode cache now).outcome = .error e) :
    get_weather city lat lon hv up cache now =
      { result := .error e,
        cache := (resolve_location city lat lon up.geocode cache now).cache,
        geocode_calls := (resolve_location city lat lon up.geocode cache now).geocode_calls,
        forecast_calls := 0 } := by
  unfold get_weather
  dsimp only
  rw [h]

/-- A forecast payload without a `current_weather` section makes the whole
request fail with 502 after the fetch step, keeping the cache of the fetch step
and call count. -/
theorem get_weather_no_current (city : Option String) (lat lon : Option ℚ)
    (hv : Option String) (up : Upstream) (cache : Cache CVal) (now : Nat)
    (loc : Location)
    (hok : (resolve_location city lat lon up.geocode cache now).outcome = .ok loc)
    (hcur : (fetch_forecast loc hv up.forecast
        (resolve_location city lat lon up.geocode cache now).cache now).value.getCurrent
      = none) :
    get_weather city lat lon hv up cache now =
      { result := .error ⟨502, "No current weather returned by upstream API"⟩,
        cache := (fetch_forecast loc hv up.forecast
          (resolve_location city lat lon up.geocode cache now).cache now).cache,
        geocode_calls := (resolve_location city lat lon up.geocode cache now).geocode_calls,
        forecast_calls := (fetch_forecast loc hv up.forecast
          (resolve_location city lat lon up.geocode cache now).cache now).forecast_calls } := by
  unfold get_weather
  dsimp only
  rw [hok]
  dsimp only
  rw [hcur]

/-- C1 counterexample: a coordinate request whose forecast body lacks the
current-conditions section fails with 502, yet the cache DOES hold an entry
for the forecast key of that request afterwards — the raw body is stored before
the validation, contradicting the claim that errors are never cached. -/
theorem error_cached_cex :
    (get_weather none (some 1) (some 2) (some "")
      { geocode := none, forecast := { current_weather := none, hourly := none } }
      emptyCache 0).result =
        .error ⟨502, "No current weather returned by upstream API"⟩
  ∧ ¬ (get_weather none (some 1) (some 2) (some "")
      { geocode := none, forecast := { current_weather := none, hourly := none } }
      emptyCache 0).cache "forecast:1.0000,2.0000:" = none := by
  decide

/-- C1 amended: only the 400 and 404 failures leave no cache entry; the two
contract-violation failures are cached before their checks run. A geocoding
candidate lacking coordinates is stored under the geocoding key and a
forecast body lacking current conditions is stored under the forecast key,
in both cases with the default TTL, so a second identical request within
the TTL window is answered from the cached payload: it fails with the same
502 error again while issuing no upstream call. -/
theorem contract_violation_cached
    (city : String) (top : GeoCandidate) (rest : List GeoCandidate)
    (f f1 f2 : Forecast) (g1 g2 : Option (List GeoCandidate))
    (hv hv2 : Option String)
    (cache cache2 : Cache CVal) (now t1 : Nat) (la lo : ℚ)
    (hcity : ¬ city = "")
    (hmiss : (cache_get cache (geocode_key city) now).1 = none)
    (hlat : top.latitude = none)
    (hwin : t1 ≤ now + CACHE_TTL_SECONDS)
    (hmiss2 : (cache_get cache2
        (forecast_cache_key (coords_location none la lo) (hourly_list hv)) now).1 = none)
    (hcur : f.current_weather = none) :
    ((get_weather (some city) none none hv { geocode := some (top :: rest), forecast := f1 }
        cache now).result = .error ⟨502, "Upstream geocoding did not return coordinates"⟩
    ∧ (get_weather (some city) none none hv { geocode := some (top :: rest), forecast := f1 }
        cache now).cache (geocode_key city) =
        some { value := .geo top, expires_at := now + CACHE_TTL_SECONDS }
    ∧ (get_weather (some city) none none hv2 { geocode := g2, forecast := f2 }
        (get_weather (some city) none none hv { geocode := some (top :: rest), forecast := f1 }
          cache now).cache t1).geocode_calls = 0
    ∧ (get_weather (some city) none none hv2 { geocode := g2, forecast := f2 }
        (get_weather (some city) none none hv { geocode := some (top :: rest), forecast := f1 }
          cache now).cache t1).result =
        .error ⟨502, "Upstream geocoding did not return coordinates"⟩)
  ∧ ((get_weather none (some la) (some lo) hv { geocode := g1, forecast := f }
        cache2 now).result = .error ⟨502, "No current weather returned by upstream API"⟩
    ∧ (get_weather none (some la) (some lo) hv { geocode := g1, forecast := f }
        cache2 now).cache
        (forecast_cache_key (coords_location none la lo) (hourly_list hv)) =
        some { value := .fc f, expires_at := now + CACHE_TTL_SECONDS }
    ∧ (get_weather none (some la) (some lo) hv { geocode := g2, forecast := f2 }
        (get_weather none (some la) (some lo) hv { geocode := g1, forecast := f }
          cache2 now).cache t1).forecast_calls = 0
    ∧ (get_weather none (some la) (some lo) hv { geocode := g2, forecast := f2 }
        (get_weather none (some la) (some lo) hv { geocode := g1, forecast := f }
          cache2 now).cache t1).result =
        .error ⟨502, "No current weather returned by upstream API"⟩) := by
  have hglat : (CVal.geo top).getLatitude = none := by
    simp [CVal.getLatitude, hlat]
  constructor
  · -- geocoding sub-case
    have hr1 : resolve_location (some city) none none (some (top :: rest)) cache now =
        finish_geo city (.geo top)
          (cache_set (cache_get cache (geocode_key city) now).2 (geocode_key city)
            (.geo top) now CACHE_TTL_SECONDS) 1 :=
      resolve_geo_miss_found city none none (some (top :: rest)) cache now top rest
        hcity (Or.inl rfl) hmiss rfl
    have hgw1 : get_weather (some city) none none hv
        { geocode := some (top :: rest), forecast := f1 } cache now =
        { result := .error ⟨502, "Upstream geocoding did not return coordinates"⟩,
          cache := cache_set (cache_get cache (geocode_key city) now).2 (geocode_key city)
            (.geo top) now CACHE_TTL_SECONDS,
          geocode_calls := 1, forecast_calls := 0 } := by
      have h := get_weather_resolve_error (some city) none none hv
        { geocode := some (top :: rest), forecast := f1 } cache now
        ⟨502, "Upstream geocoding did not return coordinates"⟩
        (by dsimp only; rw [hr1, finish_geo_no_lat city (.geo top) _ 1 hglat])
      rw [h]
      dsimp only
      rw [hr1, finish_geo_no_lat city (.geo top) _ 1 hglat]
    have hc1 : (get_weather (some city) none none hv
        { geocode := some (top :: rest), forecast := f1 } cache now).cache
        (geocode_key city) =
        some { value := .geo top, expires_at := now + CACHE_TTL_SECONDS } := by
      rw [hgw1]
      simp [cache_set]
    refine ⟨by rw [hgw1], hc1, ?_, ?_⟩ <;>
    · have hhit2 : (cache_get (get_weather (some city) none none hv
          { geocode := some (top :: rest), forecast := f1 } cache now).cache
          (geocode_key city) t1).1 = some (.geo top) := by
        simp [cache_get, hc1, Nat.not_lt.mpr hwin]
      have hr2 := resolve_geo_hit city none none g2
        (get_weather (some city) none none hv
          { geocode := some (top :: rest), forecast := f1 } cache now).cache t1
        (.geo top) hcity (Or.inl rfl) hhit2
      have h2 := get_weather_resolve_error (some city) none none hv2
        { geocode := g2, forecast := f2 }
        (get_weather (some city) none none hv
          { geocode := some (top :: rest), forecast := f1 } cache now).cache t1
        ⟨502, "Upstream geocoding did not return coordinates"⟩
        (by dsimp only; rw [hr2, finish_geo_no_lat city (.geo top) _ 0 hglat])
      rw [h2]
      all_goals
        dsimp only
        rw [hr2, finish_geo_no_lat city (.geo top) _ 0 hglat]
  · -- forecast sub-case
    have hok : (resolve_location none (some la) (some lo) g1 cache2 now).outcome =
        .ok (coords_location none la lo) :=
      (resolve_with_coords none la lo g1 cache2 now).1
    have hcach : (resolve_location none (some la) (some lo) g1 cache2 now).cache = cache2 :=
      (resolve_with_coords none la lo g1 cache2 now).2.2.2.2.2.1
    have hmf : fetch_forecast (coords_location none la lo) hv f cache2 now =
        { value := .fc f,
          cache := cache_set (cache_get cache2
              (forecast_cache_key (coords_location none la lo) (hourly_list hv)) now).2
            (forecast_cache_key (coords_location none la lo) (hourly_list hv))
            (.fc f) now CACHE_TTL_SECONDS,
          forecast_calls := 1 } :=
      fetch_forecast_miss (coords_location none la lo) hv f cache2 now hmiss2
    have hgw3 : get_weather none (some la) (some lo) hv { geocode := g1, forecast := f }
        cache2 now =
        { result := .error ⟨502, "No current weather returned by upstream API"⟩,
          cache := cache_set (cache_get cache2
              (forecast_cache_key (coords_location none la lo) (hourly_list hv)) now).2
            (forecast_cache_key (coords_location none la lo) (hourly_list hv))
            (.fc f) now CACHE_TTL_SECONDS,
          geocode_calls := 0, forecast_calls := 1 } := by
      have h := get_weather_no_current none (some la) (some lo) hv
        { geocode := g1, forecast := f } cache2 now (coords_location none la lo)
        hok (by dsimp only; rw [hcach, hmf]; simp [CVal.getCurrent, hcur])
      rw [h]
      dsimp only
      rw [hcach, hmf]
      dsimp only
      rw [(resolve_with_coords none la lo g1 cache2 now).2.2.2.2.2.2]
    have hc3 : (get_weather none (some la) (some lo) hv { geocode := g1, forecast := f }
        cache2 now).cache
        (forecast_cache_key (coords_location none la lo) (hourly_list hv)) =
        some { value := .fc f, expires_at := now + CACHE_TTL_SECONDS } := by
      rw [hgw3]
      simp [cache_set]
    refine ⟨by rw [hgw3], hc3, ?_, ?_⟩ <;>
    · have hok2 : (resolve_location none (some la) (some lo) g2
          (get_weather none (some la) (some lo) hv { geocode := g1, forecast := f }
            cache2 now).cache t1).outcome = .ok (coords_location none la lo) :=
        (resolve_with_coords none la lo g2 _ t1).1
      have hcach2 := (resolve_with_coords none la lo g2
        (get_weather none (some la) (some lo) hv { geocode := g1, forecast := f }
          cache2 now).cache t1).2.2.2.2.2.1
      have hhit4 : (cache_get (get_weather none (some la) (some lo) hv
          { geocode := g1, forecast := f } cache2 now).cache
          (forecast_cache_key (coords_location none la lo) (hourly_list hv)) t1).1 =
          some (.fc f) := by
        simp [cache_get, hc3, Nat.not_lt.mpr hwin]
      have hmf2 := fetch_forecast_hit (coords_location none la lo) hv f2
        (get_weather none (some la) (some lo) hv { geocode := g1, forecast := f }
          cache2 now).cache t1 (.fc f) hhit4
      have h4 := get_weather_no_current none (some la) (some lo) hv
        { geocode := g2, forecast := f2 }
        (get_weather none (some la) (some lo) hv { geocode := g1, forecast := f }
          cache2 now).cache t1 (coords_location none la lo)
        hok2 (by dsimp only; rw [hcach2, hmf2]; simp [CVal.getCurrent, hcur])
      rw [h4]
      all_goals
        dsimp only
        rw [hcach2, hmf2]

/-- A sample geocoding candidate lacking a latitude. -/
def topX : GeoCandidate :=
  { name := some "X", country := none, admin1 := none,
    latitude := none, longitude := some 3 }

/-- A sample forecast body lacking the current-conditions section. -/
def fNone : Forecast := { current_weather := none, hourly := none }

/-- C1 amended witness: a concrete two-request replay for both
contract-violation cases, on empty caches at times 0 and 300. -/
theorem contract_violation_cached_w :
    ((get_weather (some "Xx") none none (some "")
        { geocode := some [topX], forecast := fNone }
        emptyCache 0).cache (geocode_key "Xx") =
        some { value := .geo topX, expires_at := 300 })
  ∧ (get_weather none (some 1) (some 2) (some "")
        { geocode := none, forecast := fNone }
        (get_weather none (some 1) (some 2) (some "")
          { geocode := none, forecast := fNone }
          emptyCache 0).cache 300).forecast_calls = 0 :=
  ⟨(contract_violation_cached "Xx" topX [] fNone fNone fNone
      none none (some "") (some "") emptyCache emptyCache 0 300 1 2
      (by decide) (by decide) rfl (by decide) (by decide) rfl).1.2.1,
   (contract_violation_cached "Xx" topX [] fNone fNone fNone
      none none (some "") (some "") emptyCache emptyCache 0 300 1 2
      (by decide) (by decide) rfl (by decide) (by decide) rfl).2.2.2.1⟩

end WeatherApp
